import Mathlib

/-!
Shallow embedding of `langchain_community/chat_models/llamacpp.py`
(class `ChatLlamaCpp`): configuration validation, parameter preparation,
chat-result translation, streaming, tool binding and structured output.

Python dictionaries of call parameters are modelled as insertion-ordered
association lists over string keys; Python truthiness is modelled
explicitly wherever the source branches on it.  External collaborators
(the native `llama_cpp` library and the framework utilities not present
in the sources) are modelled from the spec, as noted on each definition.
-/

namespace LlamaCppSpec

/-- Opaque payload for log-probability structures carried through
translation untouched. -/
abbrev LogprobsVal := List (String × Int)

/-- A resolved grammar value held by a validated adapter: absent, compiled
from an inline string (`LlamaGrammar.from_string`), compiled from a file
(`LlamaGrammar.from_file`), or a pre-compiled object passed through. -/
inductive GrammarVal where
  | none
  | fromString (s : String)
  | fromFile (p : String)
  | obj (id : Nat)
  deriving DecidableEq, Repr

/-- The `grammar` field as supplied at construction:
`Optional[Union[str, Any]]` — absent, an inline grammar string, or an
already-compiled grammar object. -/
inductive GrammarIn where
  | none
  | str (s : String)
  | obj (id : Nat)
  deriving DecidableEq, Repr

/-- Python truthiness of the supplied `grammar` value: `None` and the
empty string are falsy. -/
def GrammarIn.truthy : GrammarIn → Bool
  | .none => false
  | .str s => !s.isEmpty
  | .obj _ => true

/-- Python truthiness of an `Optional[str]`: `None` and `""` are falsy. -/
def optStrTruthy : Option String → Bool
  | Option.none => false
  | some s => !s.isEmpty

/-- A value stored in a parameter dictionary. -/
inductive PVal where
  | vBool (b : Bool)
  | vOptBool (b : Option Bool)
  | vInt (n : Int)
  | vOptInt (n : Option Int)
  | vRat (q : ℚ)
  | vOptRat (q : Option ℚ)
  | vStr (s : String)
  | vOptStr (s : Option String)
  | vStrs (l : List String)
  | vOptStrs (l : Option (List String))
  | vGrammar (g : GrammarVal)
  deriving DecidableEq, Repr

/-- A Python `dict` of call parameters: an insertion-ordered association
list with unique keys maintained by `dset`. -/
abbrev Dict := List (String × PVal)

/-- Dictionary lookup (`d[k]` / `d.get(k)`). -/
def dget (d : Dict) (k : String) : Option PVal :=
  (d.find? (fun kv => kv.1 = k)).map (fun kv => kv.2)

/-- Key removal (`d.pop(k)`). -/
def dpop (d : Dict) (k : String) : Dict :=
  d.filter (fun kv => kv.1 ≠ k)

/-- Key assignment (`d[k] = v`): replaces in place when the key exists,
otherwise appends, matching Python dict insertion order. -/
def dset (d : Dict) (k : String) (v : PVal) : Dict :=
  if (d.find? (fun kv => kv.1 = k)).isSome then
    d.map (fun kv => if kv.1 = k then (k, v) else kv)
  else
    d ++ [(k, v)]

/-- Dictionary merge (`{**a, **b}` and `a.update(b)`): every key of `b`
is assigned into `a`, so `b` wins on overlapping keys. -/
def dmerge (a b : Dict) : Dict :=
  b.foldl (fun acc kv => dset acc kv.1 kv.2) a

/-- The opaque native session handle produced by `llama_cpp.Llama`,
recording the arguments it was constructed with. -/
structure Client where
  modelPath : String
  modelParams : Dict
  deriving DecidableEq, Repr

/-- The construction-time field record of `ChatLlamaCpp`, with the
declared defaults.  `grammar` is still the raw input shape; validation
resolves it. -/
structure ConfigIn where
  model_path : String
  lora_base : Option String := Option.none
  lora_path : Option String := Option.none
  n_ctx : Int := 512
  n_parts : Int := -1
  seed : Int := -1
  f16_kv : Bool := true
  logits_all : Bool := false
  vocab_only : Bool := false
  use_mlock : Bool := false
  n_threads : Option Int := Option.none
  n_batch : Option Int := some 8
  n_gpu_layers : Option Int := Option.none
  suffix : Option String := Option.none
  max_tokens : Option Int := some 256
  temperature : Option ℚ := some (8/10)
  top_p : Option ℚ := some (95/100)
  logprobs : Option Int := Option.none
  echo : Option Bool := some false
  stop : Option (List String) := some []
  repeat_penalty : Option ℚ := some (11/10)
  top_k : Option Int := some 40
  last_n_tokens_size : Option Int := some 64
  use_mmap : Option Bool := some true
  rope_freq_scale : ℚ := 1
  rope_freq_base : ℚ := 10000
  model_kwargs : Dict := []
  streaming : Bool := true
  grammar_path : Option String := Option.none
  grammar : GrammarIn := GrammarIn.none
  verbose : Bool := true
  deriving DecidableEq, Repr

/-- A validated `ChatLlamaCpp` instance: the configuration fields after
`validate_environment`, with the constructed client and the resolved
grammar. -/
structure ChatLlamaCpp where
  client : Client
  model_path : String
  max_tokens : Option Int
  temperature : Option ℚ
  top_p : Option ℚ
  logprobs : Option Int
  stop : Option (List String)
  repeat_penalty : Option ℚ
  top_k : Option Int
  streaming : Bool
  grammar : GrammarVal
  deriving DecidableEq, Repr

/-- An error raised during adapter construction: the `ImportError` for a
missing native library, the `ValueError` wrapping a native-session load
failure (carrying the model path and the underlying error), or the
`ValueError` for conflicting grammar fields (carrying both values). -/
inductive InitError where
  | importError
  | modelLoadError (path : String) (err : String)
  | configurationError (grammar : GrammarIn) (grammarPath : Option String)
  deriving DecidableEq, Repr

/-- The allow-listed model parameters forwarded to `llama_cpp.Llama`:
`model_params = {k: values[k] for k in model_param_names}`, then
`n_gpu_layers` only when non-null, then `model_params.update(model_kwargs)`. -/
def buildModelParams (values : ConfigIn) : Dict :=
  let model_params : Dict := [
    ("rope_freq_scale", PVal.vRat values.rope_freq_scale),
    ("rope_freq_base", PVal.vRat values.rope_freq_base),
    ("lora_path", PVal.vOptStr values.lora_path),
    ("lora_base", PVal.vOptStr values.lora_base),
    ("n_ctx", PVal.vInt values.n_ctx),
    ("n_parts", PVal.vInt values.n_parts),
    ("seed", PVal.vInt values.seed),
    ("f16_kv", PVal.vBool values.f16_kv),
    ("logits_all", PVal.vBool values.logits_all),
    ("vocab_only", PVal.vBool values.vocab_only),
    ("use_mlock", PVal.vBool values.use_mlock),
    ("n_threads", PVal.vOptInt values.n_threads),
    ("n_batch", PVal.vOptInt values.n_batch),
    ("use_mmap", PVal.vOptBool values.use_mmap),
    ("last_n_tokens_size", PVal.vOptInt values.last_n_tokens_size),
    ("verbose", PVal.vBool values.verbose)]
  let model_params :=
    match values.n_gpu_layers with
    | some n => dset model_params "n_gpu_layers" (PVal.vOptInt (some n))
    | Option.none => model_params
  dmerge model_params values.model_kwargs

/-- Embeds `ChatLlamaCpp.validate_environment`.  `libAvailable` models whether
`llama_cpp` imports; `llamaNew` models the external `Llama` constructor
(its success or failure is the native library's, not this adapter's).
The grammar conflict is checked by Python truthiness after the client is
built; then an inline grammar string (even an empty, falsy one) is
compiled from the string, else a truthy `grammar_path` is compiled from
the file, else the field is left as supplied. -/
def validate_environment (libAvailable : Bool)
    (llamaNew : String → Dict → Except String Client)
    (values : ConfigIn) : Except InitError ChatLlamaCpp :=
  if !libAvailable then
    Except.error InitError.importError
  else
    let model_params := buildModelParams values
    match llamaNew values.model_path model_params with
    | Except.error e => Except.error (InitError.modelLoadError values.model_path e)
    | Except.ok client =>
      if values.grammar.truthy && optStrTruthy values.grammar_path then
        Except.error (InitError.configurationError values.grammar values.grammar_path)
      else
        let resolved : GrammarVal :=
          match values.grammar with
          | GrammarIn.str s => GrammarVal.fromString s
          | GrammarIn.obj n =>
            if optStrTruthy values.grammar_path then
              GrammarVal.fromFile (values.grammar_path.getD "")
            else GrammarVal.obj n
          | GrammarIn.none =>
            if optStrTruthy values.grammar_path then
              GrammarVal.fromFile (values.grammar_path.getD "")
            else GrammarVal.none
        Except.ok {
          client := client,
          model_path := values.model_path,
          max_tokens := values.max_tokens,
          temperature := values.temperature,
          top_p := values.top_p,
          logprobs := values.logprobs,
          stop := values.stop,
          repeat_penalty := values.repeat_penalty,
          top_k := values.top_k,
          streaming := values.streaming,
          grammar := resolved }

/-- Embeds `ChatLlamaCpp._default_params`: the default parameters for calling
`create_chat_completion`, keyed with the framework-conventional
`stop_sequences`; `grammar` is added only when truthy. -/
def _default_params (self : ChatLlamaCpp) : Dict :=
  let params : Dict := [
    ("max_tokens", PVal.vOptInt self.max_tokens),
    ("temperature", PVal.vOptRat self.temperature),
    ("top_p", PVal.vOptRat self.top_p),
    ("top_k", PVal.vOptInt self.top_k),
    ("logprobs", PVal.vOptInt self.logprobs),
    ("stop_sequences", PVal.vOptStrs self.stop),
    ("repeat_penalty", PVal.vOptRat self.repeat_penalty)]
  match self.grammar with
  | GrammarVal.none => params
  | g => dset params "grammar" (PVal.vGrammar g)

/-- Computes `self.stop or []`: the configured stop list, defaulting falsy values
(`None` or the empty list) to the empty list. -/
def stopOrEmpty (stop : Option (List String)) : List String :=
  match stop with
  | some l => l
  | Option.none => []

/-- Embeds `ChatLlamaCpp._get_parameters`: starts from `_default_params`, pops
the `stop_sequences` key and sets the configured stop list under the
`stop` key expected by `llama_cpp`. -/
def _get_parameters (self : ChatLlamaCpp) : Dict :=
  let params := _default_params self
  let params := dpop params "stop_sequences"
  dset params "stop" (PVal.vStrs (stopOrEmpty self.stop))

/-- A chat message role. -/
inductive Role where
  | system
  | user
  | assistant
  | tool
  deriving DecidableEq, Repr

/-- A framework chat message: a role plus content. -/
structure ChatMessage where
  role : Role
  content : String
  deriving DecidableEq, Repr

/-- The native role/content dictionary form of a message. -/
structure MessageDict where
  role : Role
  content : String
  deriving DecidableEq, Repr

/-- Modelled from the spec: `_convert_message_to_dict`, the external
message-dictionary conversion utility — each message is translated
losslessly to the native role/content dictionary. -/
def _convert_message_to_dict (m : ChatMessage) : MessageDict :=
  { role := m.role, content := m.content }

/-- Embeds `ChatLlamaCpp._create_message_dicts`: converts every message of the
history, in order, with no reordering, deduplication or truncation. -/
def _create_message_dicts (messages : List ChatMessage) : List MessageDict :=
  messages.map _convert_message_to_dict

/-- Modelled from the spec: `_convert_dict_to_message`, the external
conversion utility translating a native representation losslessly into a
framework message; applied to the choice's text it yields an assistant
message carrying that text as content. -/
def _convert_dict_to_message (text : String) : ChatMessage :=
  { role := Role.assistant, content := text }

/-- One native non-streaming choice: its text, its finish reason
(`res.get("finish_reason")`), and the `logprobs` entry when that key
is present. -/
structure NativeChoice where
  text : String
  finish_reason : Option String
  logprobs : Option LogprobsVal
  deriving DecidableEq, Repr

/-- Token-usage statistics carried through untouched. -/
abbrev TokenUsage := List (String × Int)

/-- A native non-streaming response: a list of choices and the optional
`usage` entry (`response.get("usage", \x7b\x7d)`). -/
structure NativeResponse where
  choices : List NativeChoice
  usage : Option TokenUsage
  deriving DecidableEq, Repr

/-- The `generation_info` of one generation: the finish reason always,
the log-probabilities only when the native choice had the key. -/
structure GenerationInfo where
  finish_reason : Option String
  logprobs : Option LogprobsVal
  deriving DecidableEq, Repr

/-- One candidate generation of a chat result. -/
structure ChatGeneration where
  message : ChatMessage
  generation_info : GenerationInfo
  deriving DecidableEq, Repr

/-- The aggregated result of one generation call. -/
structure ChatResult where
  generations : List ChatGeneration
  token_usage : TokenUsage
  deriving DecidableEq, Repr

/-- Embeds `ChatLlamaCpp._create_chat_result`: one generation per native
choice, carrying the converted text, the finish reason and — when the
key is present — the log-probabilities; the `usage` entry becomes the
result's token usage, defaulting to empty. -/
def _create_chat_result (response : NativeResponse) : ChatResult :=
  let generations := response.choices.map (fun res =>
    { message := _convert_dict_to_message res.text,
      generation_info := {
        finish_reason := res.finish_reason,
        logprobs := res.logprobs } })
  { generations := generations, token_usage := response.usage.getD [] }

/-- A streaming delta: the optional role and content fragments. -/
structure StreamDelta where
  role : Option Role
  content : Option String
  deriving DecidableEq, Repr

/-- One choice of a native streaming event: its delta (possibly null),
its finish reason and its log-probabilities as returned by `.get`. -/
structure StreamChoice where
  delta : Option StreamDelta
  finish_reason : Option String
  logprobs : Option LogprobsVal
  deriving DecidableEq, Repr

/-- One native streaming event (already in dictionary form): a list of
choices. -/
structure StreamEvent where
  choices : List StreamChoice
  deriving DecidableEq, Repr

/-- The runtime message-chunk subtype carried from chunk to chunk. -/
inductive ChunkClass where
  | ai
  | human
  | system
  | tool
  deriving DecidableEq, Repr

/-- An incremental message chunk: its runtime subtype and its content
fragment. -/
structure MessageChunk where
  cls : ChunkClass
  content : String
  deriving DecidableEq, Repr

/-- Modelled from the spec: `_convert_delta_to_message_chunk`, the
external conversion utility — the chunk's content is the delta's content
(empty when absent) and its subtype is inferred from the delta's role,
falling back to the given default class when the role is omitted. -/
def _convert_delta_to_message_chunk (delta : StreamDelta)
    (defaultClass : ChunkClass) : MessageChunk :=
  let cls :=
    match delta.role with
    | some Role.user => ChunkClass.human
    | some Role.assistant => ChunkClass.ai
    | some Role.system => ChunkClass.system
    | some Role.tool => ChunkClass.tool
    | Option.none => defaultClass
  { cls := cls, content := delta.content.getD "" }

/-- The `generation_info` attached to a streamed chunk: finish reason
and log-probabilities, each included only when truthy. -/
structure ChunkGenInfo where
  finish_reason : Option String
  logprobs : Option LogprobsVal
  deriving DecidableEq, Repr

/-- Whether the chunk's `generation_info` dictionary is empty. -/
def ChunkGenInfo.isEmpty (g : ChunkGenInfo) : Bool :=
  g.finish_reason.isNone && g.logprobs.isNone

/-- One streamed generation chunk; `generation_info` is `none` when the
collected dictionary was empty (`generation_info or None`). -/
structure ChatGenerationChunk where
  message : MessageChunk
  generation_info : Option ChunkGenInfo
  deriving DecidableEq, Repr

/-- Truthiness of `choice.get("finish_reason")`: absent or empty-string
values are falsy (the walrus `if finish_reason := ...` test). -/
def truthyFinish : Option String → Option String
  | some s => if s.isEmpty then Option.none else some s
  | Option.none => Option.none

/-- Truthiness of `choice.get("logprobs")`: absent or empty values are
falsy (`if logprobs:`). -/
def truthyLogprobs : Option LogprobsVal → Option LogprobsVal
  | some l => if l.isEmpty then Option.none else some l
  | Option.none => Option.none

/-- The loop body of `ChatLlamaCpp._stream` over the native event
sequence: events with an empty choice list or a null first-choice delta
are skipped; otherwise the delta is converted with the running default
chunk class, the truthy finish reason and log-probabilities are
collected, the default class is updated to the emitted chunk's class,
and the chunk is yielded. -/
def _stream_loop (default_chunk_class : ChunkClass) :
    List StreamEvent → List ChatGenerationChunk
  | [] => []
  | ev :: rest =>
    match ev.choices with
    | [] => _stream_loop default_chunk_class rest
    | choice :: _ =>
      match choice.delta with
      | Option.none => _stream_loop default_chunk_class rest
      | some delta =>
        let mchunk := _convert_delta_to_message_chunk delta default_chunk_class
        let gi : ChunkGenInfo := {
          finish_reason := truthyFinish choice.finish_reason,
          logprobs := truthyLogprobs choice.logprobs }
        let gchunk : ChatGenerationChunk := {
          message := mchunk,
          generation_info := if gi.isEmpty then Option.none else some gi }
        gchunk :: _stream_loop mchunk.cls rest

/-- The native session invoked through `create_chat_completion`: the
full-response form and the `stream=True` form, each a function of the
message dictionaries and the dispatched parameters. -/
structure NativeClient where
  complete : List MessageDict → Dict → NativeResponse
  completeStream : List MessageDict → Dict → List StreamEvent

/-- The parameters dispatched to the native session by `_generate` and
`_stream`: `\x7b**self._get_parameters(), **kwargs\x7d` — the per-call
override map merged on top of the configuration-derived defaults. -/
def dispatched_params (self : ChatLlamaCpp) (kwargs : Dict) : Dict :=
  dmerge (_get_parameters self) kwargs

/-- Embeds `ChatLlamaCpp._stream`: merges parameters, converts the message
history and drives the filtering loop over the native streaming events,
starting with `AIMessageChunk` as the default chunk class.  The `stop`
argument is accepted but never read by the body. -/
def _stream (self : ChatLlamaCpp) (client : NativeClient)
    (messages : List ChatMessage) (stop : Option (List String))
    (kwargs : Dict) : List ChatGenerationChunk :=
  let params := dispatched_params self kwargs
  let message_dicts := _create_message_dicts messages
  _stream_loop ChunkClass.ai (client.completeStream message_dicts params)

/-- Modelled from the spec: `generate_from_stream`, the framework
collaborator that aggregates all streaming chunks into one result — the
contents are concatenated into a single assistant message, and the
finish reason is the last truthy one observed (present only on the
terminal chunk). -/
def generate_from_stream (chunks : List ChatGenerationChunk) : ChatResult :=
  let content := String.join (chunks.map (fun c => c.message.content))
  let finish := (chunks.filterMap (fun c =>
    c.generation_info.bind (fun g => g.finish_reason))).getLast?
  { generations := [{
      message := { role := Role.assistant, content := content },
      generation_info := { finish_reason := finish, logprobs := Option.none } }],
    token_usage := [] }

/-- Embeds `ChatLlamaCpp._generate`: when the adapter is configured with
`streaming=True`, runs the streaming path to completion and aggregates
it (the call to `_stream` leaves `stop` at its `None` default); otherwise
merges parameters, converts the history and translates the native full
response.  The `stop` argument is accepted but never read by the body. -/
def _generate (self : ChatLlamaCpp) (client : NativeClient)
    (messages : List ChatMessage) (stop : Option (List String))
    (kwargs : Dict) : ChatResult :=
  if self.streaming then
    generate_from_stream (_stream self client messages Option.none kwargs)
  else
    let params := dispatched_params self kwargs
    let message_dicts := _create_message_dicts messages
    _create_chat_result (client.complete message_dicts params)

/-- A tool-like input to `bind_tools` (dict schema, typed schema class,
callable or tool object), reduced to the data the normalization
collaborator extracts from it. -/
structure ToolInput where
  name : String
  description : String
  parameters : List String
  deriving DecidableEq, Repr

/-- A normalized tool descriptor in the canonical
`\x7btype: "function", function: \x7bname, description, parameters\x7d\x7d` shape. -/
structure FormattedTool where
  type : String
  name : String
  description : String
  parameters : List String
  deriving DecidableEq, Repr

/-- Modelled from the spec: `convert_to_openai_tool`, the external
tool-schema normalization utility converging every input shape to the
canonical function descriptor. -/
def convert_to_openai_tool (t : ToolInput) : FormattedTool :=
  { type := "function", name := t.name, description := t.description,
    parameters := t.parameters }

/-- A runtime value passed as `tool_choice`: `None`, a boolean, a
string, a forcing dict `\x7b"type": "function", "function": \x7b"name": n\x7d\x7d`,
or a value of some other type (an integer or a list stand in for the
unconstrained remainder). -/
inductive ToolChoiceV where
  | vNone
  | vBool (b : Bool)
  | vStr (s : String)
  | vDict (functionName : String)
  | vInt (n : Int)
  | vList (xs : List String)
  deriving DecidableEq, Repr

/-- Python truthiness of a `tool_choice` value (`if tool_choice:`):
`None`, `False`, the empty string, zero and the empty list are falsy;
a forcing dict is a non-empty dict and therefore truthy. -/
def ToolChoiceV.truthy : ToolChoiceV → Bool
  | .vNone => false
  | .vBool b => b
  | .vStr s => !s.isEmpty
  | .vDict _ => true
  | .vInt n => n ≠ 0
  | .vList xs => !xs.isEmpty

/-- Whether the value is of a type other than dict, str and bool. -/
def ToolChoiceV.isOtherType : ToolChoiceV → Bool
  | .vNone => true
  | .vBool _ => false
  | .vStr _ => false
  | .vDict _ => false
  | .vInt _ => true
  | .vList _ => true

/-- An error raised by `bind_tools`: the `ValueError` for an invalid or
ambiguous tool choice, or Python's `IndexError` from an out-of-range
subscript. -/
inductive BindError where
  | toolChoiceError
  | indexError
  deriving DecidableEq, Repr

/-- The `tool_choice` value carried into the bound model's kwargs:
either the caller's value unchanged, or the formatted descriptor of the
auto-selected single tool. -/
inductive ResolvedChoice where
  | raw (v : ToolChoiceV)
  | tool (t : FormattedTool)
  deriving DecidableEq, Repr

/-- The result of `bind_tools`: the adapter with the normalized tool
list and the resolved tool choice fixed for subsequent calls. -/
structure BoundModel where
  tools : List FormattedTool
  tool_choice : ResolvedChoice
  deriving DecidableEq, Repr

/-- Embeds `ChatLlamaCpp.bind_tools`: normalizes every tool, then — only when
`tool_choice` is truthy — validates it in order (dict referencing a
known name, string matching a tool name, boolean legal only for a
single-tool list where it auto-selects `formatted_tools[0]`, anything
else rejected), and binds the formatted tools with the resolved
choice. -/
def bind_tools (tools : List ToolInput) (tool_choice : ToolChoiceV) :
    Except BindError BoundModel :=
  let formatted_tools := tools.map convert_to_openai_tool
  let tool_names := formatted_tools.map (fun ft => ft.name)
  if tool_choice.truthy then
    match tool_choice with
    | ToolChoiceV.vDict fname =>
      if tool_names.any (fun n => fname = n) then
        Except.ok { tools := formatted_tools,
                    tool_choice := ResolvedChoice.raw tool_choice }
      else Except.error BindError.toolChoiceError
    | ToolChoiceV.vStr s =>
      let chosen := formatted_tools.filter (fun f => f.name = s)
      if chosen.isEmpty then Except.error BindError.toolChoiceError
      else
        Except.ok { tools := formatted_tools,
                    tool_choice := ResolvedChoice.raw tool_choice }
    | ToolChoiceV.vBool _ =>
      if formatted_tools.length > 1 then Except.error BindError.toolChoiceError
      else
        match formatted_tools with
        | [] => Except.error BindError.indexError
        | t :: _ =>
          Except.ok { tools := formatted_tools,
                      tool_choice := ResolvedChoice.tool t }
    | _ => Except.error BindError.toolChoiceError
  else
    Except.ok { tools := formatted_tools,
                tool_choice := ResolvedChoice.raw tool_choice }

/-- A target schema for structured output: a typed (Pydantic) class or a
dict-form schema, reduced to the name its parser keys on. -/
inductive SchemaIn where
  | pydantic (name : String)
  | dictSchema (name : String)
  deriving DecidableEq, Repr

/-- An error raised synchronously by `with_structured_output` itself:
the `ValueError` for unsupported extra kwargs, or the `ValueError` for a
missing schema. -/
inductive StructuredOutputError where
  | unsupportedArguments
  | schemaError
  deriving DecidableEq, Repr

/-- The observable outcome of one invocation of the composed structured
output pipeline: the parsed value (plain mode, success), a raised parse
error propagating to the caller (plain mode, failure), or the
three-field record of `include_raw` mode. -/
inductive PipeResult (Raw Parsed : Type) where
  | value (p : Parsed)
  | raisedParseError (e : String)
  | record (raw : Raw) (parsed : Option Parsed) (parsing_error : Option String)
  deriving DecidableEq, Repr

/-- Embeds `ChatLlamaCpp.with_structured_output`: rejects extra kwargs, then a
missing schema; binds the schema as the single forced tool and composes
it with the schema's output parser.  The runnable combinators are
modelled from the spec: with `include_raw` the output is the
`\x7braw, parsed, parsing_error\x7d` record and a parse failure is captured
into it (`parsed` absent, `parsing_error` set) rather than propagated;
without it the parsed value is returned directly and a parse failure
propagates.  `llm` models the bound generation step and `parserFor` the
external output parsers (`PydanticToolsParser` /
`JsonOutputKeyToolsParser`). -/
def with_structured_output {Input Raw Parsed : Type}
    (llm : Input → Raw)
    (parserFor : SchemaIn → Raw → Except String Parsed)
    (schema : Option SchemaIn) (include_raw : Bool) (kwargs : Dict) :
    Except StructuredOutputError (Input → PipeResult Raw Parsed) :=
  if !kwargs.isEmpty then
    Except.error StructuredOutputError.unsupportedArguments
  else
    match schema with
    | Option.none => Except.error StructuredOutputError.schemaError
    | some sch =>
      let outputParser := parserFor sch
      if include_raw then
        Except.ok (fun input =>
          let raw := llm input
          match outputParser raw with
          | Except.ok p => PipeResult.record raw (some p) Option.none
          | Except.error e => PipeResult.record raw Option.none (some e))
      else
        Except.ok (fun input =>
          match outputParser (llm input) with
          | Except.ok p => PipeResult.value p
          | Except.error e => PipeResult.raisedParseError e)

/-! Concrete sample values used to instantiate hypotheses at witnesses. -/

/-- A sample native session handle. -/
def sampleClientHandle : Client :=
  { modelPath := "model.gguf", modelParams := [] }

/-- A sample validated adapter with the source's default field values. -/
def sampleSelf : ChatLlamaCpp :=
  { client := sampleClientHandle,
    model_path := "model.gguf",
    max_tokens := some 256,
    temperature := some (8/10),
    top_p := some (95/100),
    logprobs := Option.none,
    stop := some [],
    repeat_penalty := some (11/10),
    top_k := some 40,
    streaming := true,
    grammar := GrammarVal.none }

/-- A sample tool input. -/
def sampleToolA : ToolInput :=
  { name := "get_weather", description := "weather lookup", parameters := ["city"] }

/-- A second sample tool input. -/
def sampleToolB : ToolInput :=
  { name := "get_time", description := "time lookup", parameters := ["zone"] }

/-! Helper lemmas shared by the claims about the streaming loop. -/

/-- An event survives the filtering of the streaming loop exactly when
its choice list is non-empty and its first choice's delta is non-null. -/
def validEvent (e : StreamEvent) : Bool :=
  match e.choices with
  | [] => false
  | choice :: _ => choice.delta.isSome

/-- The content fragment an event contributes: its first choice's delta
content, empty when absent. -/
def eventContent (e : StreamEvent) : String :=
  match e.choices with
  | [] => ""
  | choice :: _ =>
    match choice.delta with
    | some delta => delta.content.getD ""
    | Option.none => ""

/-- The contents of the generations of a result, in order. -/
def resultContents (r : ChatResult) : List String :=
  r.generations.map (fun g => g.message.content)

lemma stream_loop_contents (events : List StreamEvent) : ∀ (dc : ChunkClass),
    (_stream_loop dc events).map (fun c => c.message.content)
      = (events.filter validEvent).map eventContent := by
  induction events with
  | nil => intro dc; rfl
  | cons ev rest ih =>
    intro dc
    rcases hch : ev.choices with _ | ⟨choice, more⟩
    · simp [_stream_loop, hch, validEvent, List.filter, ih]
    · rcases hd : choice.delta with _ | delta
      · simp [_stream_loop, hch, hd, validEvent, List.filter, ih]
      · simp [_stream_loop, hch, hd, validEvent, List.filter, ih,
          _convert_delta_to_message_chunk, eventContent]

lemma stream_loop_length (events : List StreamEvent) (dc : ChunkClass) :
    (_stream_loop dc events).length = (events.filter validEvent).length := by
  have h := stream_loop_contents events dc
  have h1 := congrArg List.length h
  simpa using h1

/-- A configuration supplying both grammar fields with non-empty values. -/
def sampleDualCfg : ConfigIn :=
  { model_path := "model.gguf",
    grammar := GrammarIn.str "root ::= x",
    grammar_path := some "g.gbnf" }

/-- A model of the external `Llama` constructor that always succeeds. -/
def sampleLlamaNew : String → Dict → Except String Client :=
  fun p d => Except.ok { modelPath := p, modelParams := d }

/-- The fixed synthetic native response of the spec:
one choice with text `hello` and finish reason `stop`, plus usage. -/
def fixedResponse : NativeResponse :=
  { choices := [{ text := "hello", finish_reason := some "stop",
                  logprobs := Option.none }],
    usage := some [("prompt_tokens", 2), ("completion_tokens", 1),
                   ("total_tokens", 3)] }

/-- An adapter configured with the stop list `["a"]`. -/
def sampleSelfStopA : ChatLlamaCpp := { sampleSelf with stop := some ["a"] }

/-- A streaming event carrying the delta fragment `he`. -/
def sampleEvDeltaHe : StreamEvent :=
  { choices := [{ delta := some { role := some Role.assistant, content := some "he" },
                  finish_reason := Option.none, logprobs := Option.none }] }

/-- A streaming event with an empty choice list. -/
def sampleEvEmpty : StreamEvent := { choices := [] }

/-- A streaming event whose first choice has a null delta. -/
def sampleEvNull : StreamEvent :=
  { choices := [{ delta := Option.none, finish_reason := Option.none,
                  logprobs := Option.none }] }

/-- A terminal streaming event carrying the delta fragment `llo`. -/
def sampleEvDeltaLlo : StreamEvent :=
  { choices := [{ delta := some { role := Option.none, content := some "llo" },
                  finish_reason := some "stop", logprobs := Option.none }] }

/-- A native client whose streaming events concatenate to the text of
its full response. -/
def sampleStreamingClient : NativeClient :=
  { complete := fun _ _ =>
      { choices := [{ text := "hello", finish_reason := some "stop",
                      logprobs := Option.none }],
        usage := some [] },
    completeStream := fun _ _ =>
      [sampleEvDeltaHe, sampleEvEmpty, sampleEvNull, sampleEvDeltaLlo] }

/-- A sample raw generation output for the structured-output pipeline. -/
def sampleRawMsg : ChatMessage := { role := Role.assistant, content := "raw" }

/-- A sample bound generation step returning `sampleRawMsg`. -/
def sampleLLM : String → ChatMessage := fun _ => sampleRawMsg

/-- A sample output parser that always fails. -/
def sampleFailingParser : SchemaIn → ChatMessage → Except String String :=
  fun _ _ => Except.error "parse failure"

lemma length_filter_add_length_filter_not {α : Type} (p : α → Bool) (l : List α) :
    (l.filter p).length + (l.filter (fun a => !(p a))).length = l.length := by
  induction l with
  | nil => rfl
  | cons a l ih =>
    by_cases hp : p a <;> simp [List.filter, hp, ← ih] <;> omega

lemma dispatched_params_streaming_irrelevant (self : ChatLlamaCpp) (b : Bool)
    (kwargs : Dict) :
    dispatched_params { self with streaming := b } kwargs
      = dispatched_params self kwargs := rfl

/-- C6: for every configuration, the parameter map produced for dispatch
by `_get_parameters` contains the stop list under the native key `stop`
and no longer contains the internal default-parameter key
`stop_sequences` — the key is renamed, not duplicated. -/
theorem get_parameters_renames_stop_key (self : ChatLlamaCpp) :
    dget (_get_parameters self) "stop" = some (PVal.vStrs (stopOrEmpty self.stop)) ∧
    dget (_get_parameters self) "stop_sequences" = Option.none := by
  rcases hg : self.grammar with _ | s | p | n <;>
    simp [_get_parameters, _default_params, hg, dpop, dset, dget]

/-- C10: tool binding with `tool_choice=True` and an empty tool list does
not fail with the tool-choice `ValueError`; the only failing check is
`len(formatted_tools) > 1`, so control reaches the unguarded
`formatted_tools[0]` and fails with an out-of-bounds index error. -/
theorem bind_tools_true_empty_tools_index_error :
    bind_tools [] (ToolChoiceV.vBool true) = Except.error BindError.indexError := by
  rfl

/-- C7: tool binding with `tool_choice=True` and exactly one supplied
tool auto-selects that tool — the resolved choice is the normalized
descriptor of the single tool — and with two or more supplied tools it
always fails with the tool-choice error. -/
theorem bind_tools_bool_choice (t : ToolInput) (tools : List ToolInput)
    (h : 2 ≤ tools.length) :
    bind_tools [t] (ToolChoiceV.vBool true)
      = Except.ok { tools := [convert_to_openai_tool t],
                    tool_choice := ResolvedChoice.tool (convert_to_openai_tool t) } ∧
    bind_tools tools (ToolChoiceV.vBool true) = Except.error BindError.toolChoiceError := by
  constructor
  · rfl
  · simp [bind_tools, ToolChoiceV.truthy]
    intro hc
    exact absurd hc (by omega)

/-- Witness for C7 at a concrete two-tool list. -/
theorem bind_tools_bool_choice_witness :
    2 ≤ ([sampleToolA, sampleToolB] : List ToolInput).length ∧
    bind_tools [sampleToolA, sampleToolB] (ToolChoiceV.vBool true)
      = Except.error BindError.toolChoiceError :=
  ⟨by decide,
   (bind_tools_bool_choice sampleToolA [sampleToolA, sampleToolB] (by decide)).2⟩

/-- C8 counterexample: `tool_choice = 0` is neither a dict, a string nor
a boolean, yet tool binding does not fail with the tool-choice error —
the falsy value skips the `if tool_choice:` validation block entirely
and is bound unchanged. -/
theorem bind_tools_falsy_other_choice_binds :
    bind_tools [sampleToolA] (ToolChoiceV.vInt 0)
      = Except.ok { tools := [convert_to_openai_tool sampleToolA],
                    tool_choice := ResolvedChoice.raw (ToolChoiceV.vInt 0) } ∧
    bind_tools [sampleToolA] (ToolChoiceV.vInt 0)
      ≠ Except.error BindError.toolChoiceError := by
  refine ⟨rfl, fun hco => ?_⟩
  rw [show bind_tools [sampleToolA] (ToolChoiceV.vInt 0)
      = Except.ok { tools := [convert_to_openai_tool sampleToolA],
                    tool_choice := ResolvedChoice.raw (ToolChoiceV.vInt 0) } from rfl] at hco
  exact Except.noConfusion hco

/-- C8 amended: for every truthy `tool_choice` value of a type other
than dict, string and boolean, tool binding fails with the tool-choice
error; falsy values of such types bypass the validation. -/
theorem bind_tools_truthy_other_choice_errors (tools : List ToolInput)
    (v : ToolChoiceV) (hother : v.isOtherType = true) (htruthy : v.truthy = true) :
    bind_tools tools v = Except.error BindError.toolChoiceError := by
  rcases v with _ | b | s | f | n | xs
  · simp [ToolChoiceV.truthy] at htruthy
  · simp [ToolChoiceV.isOtherType] at hother
  · simp [ToolChoiceV.isOtherType] at hother
  · simp [ToolChoiceV.isOtherType] at hother
  · simp [bind_tools, htruthy]
  · simp [bind_tools, htruthy]

/-- Witness for the amended C8 at the concrete value `7`. -/
theorem bind_tools_truthy_other_choice_errors_witness :
    (ToolChoiceV.vInt 7).isOtherType = true ∧ (ToolChoiceV.vInt 7).truthy = true ∧
    bind_tools [sampleToolA] (ToolChoiceV.vInt 7)
      = Except.error BindError.toolChoiceError :=
  ⟨by decide, by decide,
   bind_tools_truthy_other_choice_errors [sampleToolA] (ToolChoiceV.vInt 7)
     (by decide) (by decide)⟩

/-- C4: whenever both the inline grammar and the grammar file path are
supplied with non-empty (truthy) values, adapter construction never
succeeds, and — provided the native library imports and the native
session construction succeeds — it fails with the grammar-conflict
configuration error. -/
theorem construction_rejects_dual_grammar (cfg : ConfigIn)
    (hg : cfg.grammar.truthy = true) (hp : optStrTruthy cfg.grammar_path = true) :
    (∀ (lib : Bool) (f : String → Dict → Except String Client),
      (validate_environment lib f cfg).isOk = false) ∧
    (∀ (f : String → Dict → Except String Client) (c : Client),
      f cfg.model_path (buildModelParams cfg) = Except.ok c →
      validate_environment true f cfg
        = Except.error (InitError.configurationError cfg.grammar cfg.grammar_path)) := by
  constructor
  · intro lib f
    cases lib
    · simp [validate_environment, Except.isOk, Except.toBool]
    · rcases hf : f cfg.model_path (buildModelParams cfg) with e | c
      · simp [validate_environment, hf, Except.isOk, Except.toBool]
      · simp [validate_environment, hf, hg, hp, Except.isOk, Except.toBool]
  · intro f c hf
    simp [validate_environment, hf, hg, hp]

/-- Witness for C4 at a concrete dual-grammar configuration and an
always-succeeding native constructor. -/
theorem construction_rejects_dual_grammar_witness :
    sampleDualCfg.grammar.truthy = true ∧
    optStrTruthy sampleDualCfg.grammar_path = true ∧
    validate_environment true sampleLlamaNew sampleDualCfg
      = Except.error (InitError.configurationError
          (GrammarIn.str "root ::= x") (some "g.gbnf")) :=
  ⟨by decide, by decide,
   (construction_rejects_dual_grammar sampleDualCfg (by decide) (by decide)).2
     sampleLlamaNew
     { modelPath := "model.gguf", modelParams := buildModelParams sampleDualCfg }
     rfl⟩

/-- C1: translating the fixed synthetic response yields exactly one
generation with message content `hello` and finish reason `stop`; in
general, translation produces one generation per native choice, carrying
that choice's text as content, its finish reason, and its
log-probabilities exactly when the key was present. -/
theorem create_chat_result_translates_choices
    (resp : NativeResponse) (i : Nat) (h : i < resp.choices.length) :
    ((_create_chat_result fixedResponse).generations.length = 1 ∧
      (_create_chat_result fixedResponse).generations.map
        (fun g => g.message.content) = ["hello"] ∧
      (_create_chat_result fixedResponse).generations.map
        (fun g => g.generation_info.finish_reason) = [some "stop"]) ∧
    ((_create_chat_result resp).generations.length = resp.choices.length ∧
      ∃ g, (_create_chat_result resp).generations[i]? = some g ∧
        g.message.content = (resp.choices.get ⟨i, h⟩).text ∧
        g.generation_info.finish_reason = (resp.choices.get ⟨i, h⟩).finish_reason ∧
        g.generation_info.logprobs = (resp.choices.get ⟨i, h⟩).logprobs) := by
  refine ⟨⟨rfl, rfl, rfl⟩, by simp [_create_chat_result], ?_⟩
  refine ⟨{ message := _convert_dict_to_message (resp.choices.get ⟨i, h⟩).text,
            generation_info := {
              finish_reason := (resp.choices.get ⟨i, h⟩).finish_reason,
              logprobs := (resp.choices.get ⟨i, h⟩).logprobs } },
          ?_, rfl, rfl, rfl⟩
  simp [_create_chat_result, List.getElem?_eq_getElem, h]

/-- Witness for C1 at the fixed synthetic response and choice index 0. -/
theorem create_chat_result_translates_choices_witness :
    0 < fixedResponse.choices.length ∧
    ((_create_chat_result fixedResponse).generations.length
        = fixedResponse.choices.length ∧
      ∃ g, (_create_chat_result fixedResponse).generations[0]? = some g ∧
        g.message.content = "hello" ∧
        g.generation_info.finish_reason = some "stop" ∧
        g.generation_info.logprobs = Option.none) :=
  ⟨by decide, (create_chat_result_translates_choices fixedResponse 0 (by decide)).2⟩

/-- C2: the streaming entry point yields exactly one chunk per native
event whose choice list is non-empty and whose first choice's delta is
non-null, in arrival order; the chunk count is the number of events
minus the number of empty-choice or null-delta events, and the surfaced
contents are those events' delta fragments in original order. -/
theorem stream_filters_empty_and_null_delta (self : ChatLlamaCpp)
    (client : NativeClient) (messages : List ChatMessage)
    (stop : Option (List String)) (kwargs : Dict) :
    (_stream self client messages stop kwargs).length
      = ((client.completeStream (_create_message_dicts messages)
          (dispatched_params self kwargs)).filter validEvent).length ∧
    (_stream self client messages stop kwargs).length
      = (client.completeStream (_create_message_dicts messages)
            (dispatched_params self kwargs)).length
        - ((client.completeStream (_create_message_dicts messages)
            (dispatched_params self kwargs)).filter
              (fun e => !(validEvent e))).length ∧
    (_stream self client messages stop kwargs).map (fun c => c.message.content)
      = ((client.completeStream (_create_message_dicts messages)
          (dispatched_params self kwargs)).filter validEvent).map eventContent := by
  refine ⟨stream_loop_length _ ChunkClass.ai, ?_,
    stream_loop_contents _ ChunkClass.ai⟩
  have hsum := length_filter_add_length_filter_not validEvent
    (client.completeStream (_create_message_dicts messages)
      (dispatched_params self kwargs))
  have hlen := stream_loop_length
    (client.completeStream (_create_message_dicts messages)
      (dispatched_params self kwargs)) ChunkClass.ai
  show (_stream_loop ChunkClass.ai (client.completeStream
      (_create_message_dicts messages) (dispatched_params self kwargs))).length = _
  omega

/-- C5 (code bug): the per-call stop-sequence argument of `_generate`
and `_stream` is accepted but never dispatched — both entry points are
invariant in it, and with the configuration stop list `["a"]` and no
kwargs the dispatched `stop` entry is `["a"]` regardless of any
per-call stop override. -/
theorem percall_stop_override_ignored :
    (∀ (self : ChatLlamaCpp) (client : NativeClient) (msgs : List ChatMessage)
        (s1 s2 : Option (List String)) (kw : Dict),
      _generate self client msgs s1 kw = _generate self client msgs s2 kw ∧
      _stream self client msgs s1 kw = _stream self client msgs s2 kw) ∧
    dget (dispatched_params sampleSelfStopA []) "stop"
      = some (PVal.vStrs ["a"]) := by
  exact ⟨fun self client msgs s1 s2 kw => ⟨rfl, rfl⟩, by rfl⟩

/-- C9: on a forced parse failure, the structured-output pipeline built
with `include_raw=True` returns the record with `parsed` absent and
`parsing_error` set (the failure is captured, not propagated), while the
pipeline built with `include_raw=False` propagates the same parse error
to the caller. -/
theorem structured_output_include_raw_captures_parse_error
    {Input Raw Parsed : Type} (llm : Input → Raw)
    (parserFor : SchemaIn → Raw → Except String Parsed)
    (sch : SchemaIn) (input : Input) (e : String)
    (hfail : parserFor sch (llm input) = Except.error e) :
    Except.map (fun pipe => pipe input)
        (with_structured_output llm parserFor (some sch) true [])
      = Except.ok (PipeResult.record (llm input) Option.none (some e)) ∧
    Except.map (fun pipe => pipe input)
        (with_structured_output llm parserFor (some sch) false [])
      = Except.ok (PipeResult.raisedParseError e) := by
  constructor <;> simp [with_structured_output, hfail, Except.map]

/-- Witness for C9 at a concrete always-failing parser. -/
theorem structured_output_include_raw_captures_parse_error_witness :
    sampleFailingParser (SchemaIn.pydantic "S") (sampleLLM "q")
      = Except.error "parse failure" ∧
    Except.map (fun pipe => pipe "q")
        (with_structured_output sampleLLM sampleFailingParser
          (some (SchemaIn.pydantic "S")) true [])
      = Except.ok (PipeResult.record sampleRawMsg Option.none
          (some "parse failure")) ∧
    Except.map (fun pipe => pipe "q")
        (with_structured_output sampleLLM sampleFailingParser
          (some (SchemaIn.pydantic "S")) false [])
      = Except.ok (PipeResult.raisedParseError "parse failure") :=
  ⟨rfl,
   (structured_output_include_raw_captures_parse_error sampleLLM
     sampleFailingParser (SchemaIn.pydantic "S") "q" "parse failure" rfl).1,
   (structured_output_include_raw_captures_parse_error sampleLLM
     sampleFailingParser (SchemaIn.pydantic "S") "q" "parse failure" rfl).2⟩

/-- C3: with `streaming=True`, `_generate` is the aggregation of the
streaming path run to completion; and whenever the native client's full
response consists of one choice whose text equals the concatenation of
its streaming deltas, the final content the caller observes is identical
in streaming and non-streaming mode. -/
theorem generate_streaming_refines_nonstreaming (self : ChatLlamaCpp)
    (client : NativeClient) (msgs : List ChatMessage)
    (stop : Option (List String)) (kwargs : Dict)
    (hcoh : (client.complete (_create_message_dicts msgs)
          (dispatched_params self kwargs)).choices.map (fun c => c.text)
      = [String.join (((client.completeStream (_create_message_dicts msgs)
          (dispatched_params self kwargs)).filter validEvent).map eventContent)]) :
    (self.streaming = true →
      _generate self client msgs stop kwargs
        = generate_from_stream (_stream self client msgs Option.none kwargs)) ∧
    resultContents (_generate { self with streaming := true } client msgs stop kwargs)
      = resultContents (_generate { self with streaming := false } client msgs stop kwargs) := by
  constructor
  · intro hs
    simp [_generate, hs]
  · show resultContents (generate_from_stream (_stream_loop ChunkClass.ai
        (client.completeStream (_create_message_dicts msgs)
          (dispatched_params self kwargs))))
      = resultContents (_create_chat_result (client.complete
          (_create_message_dicts msgs) (dispatched_params self kwargs)))
    simp only [resultContents, generate_from_stream, _create_chat_result,
      _convert_dict_to_message, List.map_map, List.map_cons, List.map_nil,
      stream_loop_contents]
    simpa [Function.comp] using hcoh.symm

/-- Witness for C3 at a concrete coherent client whose stream events
(`he`, an empty-choice event, a null-delta event, `llo`) concatenate to
the full response's text `hello`. -/
theorem generate_streaming_refines_nonstreaming_witness :
    resultContents (_generate { sampleSelf with streaming := true }
        sampleStreamingClient [] Option.none [])
      = resultContents (_generate { sampleSelf with streaming := false }
        sampleStreamingClient [] Option.none []) :=
  (generate_streaming_refines_nonstreaming sampleSelf sampleStreamingClient []
    Option.none [] (by decide)).2

end LlamaCppSpec
